import Mathlib

set_option maxRecDepth 8000
set_option maxHeartbeats 4000000

/-! Shallow embedding of the plant-disease-detector backend
(`backend/utils/image_processor.py`, `backend/models/disease_detector.py`,
`backend/main.py`).

Modelling conventions:
* A decoded image (a PIL `Image` together with the numpy array `np.array(image)`
  obtained from it) is an `Img`: height, width, channel count and a total pixel
  map.  `channels = 1` corresponds to a single-band (mode `L`) image whose numpy
  array is 2-dimensional of shape (H, W); any other channel count corresponds to
  a 3-dimensional array of shape (H, W, channels).
* `uint8` pixel values are `Nat`s (the byte range enters theorems as explicit
  `≤ 255` bounds); floating-point quantities are modelled as exact rationals
  (`Rat`), so `float32`/`float64` rounding is not modelled — the properties
  proved here are about the exact arithmetic the source computes with floats.
* Calls into external libraries (PIL resize, the cv2 colour-space transforms,
  CLAHE, morphology) are either taken as function parameters constrained by the
  library's documented contract, or embedded via the library's documented
  integer formulas (grayscale conversion, the 3×3 Laplacian, `inRange`).
* Python code that can raise is embedded as an `Except`-valued core; a
  `try/except` wrapper in the source becomes a `match` on that core.
-/

/-- A decoded image: the PIL image and its numpy array view.
`channels = 1` models a mode-`L` image whose `np.array` is 2-D (ndim 2);
otherwise the array has shape (height, width, channels). -/
structure Img where
  height : Nat
  width : Nat
  channels : Nat
  px : Nat → Nat → Nat → Nat

/-- A single-channel (grayscale) 2-D array. -/
structure GrayImg where
  height : Nat
  width : Nat
  px : Nat → Nat → Nat

/-- A float array of shape (height, width, channels), values modelled as `Rat`. -/
structure Tensor where
  height : Nat
  width : Nat
  channels : Nat
  px : Nat → Nat → Nat → Rat

/-- Sum of `f` over the interval `[lo, lo + n)`, by balanced binary splitting.
The `fuel` argument (always instantiated with `n` itself) makes the recursion
structural, so closed instances evaluate inside the kernel with logarithmic
recursion depth. -/
def sumN (f : Nat → Int) : Nat → Nat → Nat → Int
  | 0, _, _ => 0
  | _ + 1, _, 0 => 0
  | _ + 1, lo, 1 => f lo
  | fuel + 1, lo, n => sumN f fuel lo (n / 2) + sumN f fuel (lo + n / 2) (n - n / 2)

/-- Sum of `f i j` over the grid `i < h`, `j < w` (numpy reductions over a
2-D array). -/
def sum2 (h w : Nat) (f : Nat → Nat → Int) : Int :=
  sumN (fun i => sumN (fun j => f i j) w 0 w) h 0 h

/-- PIL `image.convert('L')`: for an RGB/RGBA source Pillow computes
`L = (R*19595 + G*38470 + B*7471 + 32768) >> 16` (the ITU-R 601-2 weights in
16.16 fixed point); a single-band or L+alpha source keeps its first band. -/
def convertL (img : Img) : GrayImg :=
  if img.channels = 3 ∨ img.channels = 4 then
    ⟨img.height, img.width, fun i j =>
      (19595 * img.px i j 0 + 38470 * img.px i j 1 + 7471 * img.px i j 2 + 32768) / 65536⟩
  else
    ⟨img.height, img.width, fun i j => img.px i j 0⟩

/-- Mean intensity `np.mean(np.array(image.convert('L')))` as an exact rational. -/
def meanBrightness (img : Img) : Rat :=
  (sum2 img.height img.width (fun i j => ((convertL img).px i j : Int)) : Rat)
    / ((img.height : Rat) * (img.width : Rat))

/-- The pixel arithmetic of `cv2.cvtColor(·, cv2.COLOR_RGB2GRAY)` on 8-bit
input: `Y = (R*4899 + G*9617 + B*1868 + 8192) >> 14` (the 0.299/0.587/0.114
weights in 14-bit fixed point). -/
def cvGray (img : Img) : GrayImg :=
  ⟨img.height, img.width, fun i j =>
    (4899 * img.px i j 0 + 9617 * img.px i j 1 + 1868 * img.px i j 2 + 8192) / 16384⟩

/-- `cv2.cvtColor(np.array(image), cv2.COLOR_RGB2GRAY)`: OpenCV asserts the
source has 3 or 4 channels (a 2-D or 2-channel array raises
`cv2.error: Invalid number of channels`); on success it applies `cvGray`. -/
def cvtColorRGB2GRAY (img : Img) : Except String GrayImg :=
  if img.channels = 3 ∨ img.channels = 4 then .ok (cvGray img)
  else .error "cvtColor: Invalid number of channels in input image"

/-- OpenCV `BORDER_REFLECT_101` index reflection used by `cv2.Laplacian`
at the array border: index −1 maps to 1 and index `n` maps to `n − 2`. -/
def reflect101 (n : Nat) (i : Int) : Nat :=
  if i < 0 then (-i).toNat
  else if i < (n : Int) then i.toNat
  else (2 * (n : Int) - 2 - i).toNat

/-- One output value of `cv2.Laplacian(gray, cv2.CV_64F)` (default aperture
`ksize=1`): the 3×3 kernel `[[0,1,0],[1,-4,1],[0,1,0]]` with
`BORDER_REFLECT_101` border handling.  Exact on 8-bit input. -/
def lapAt (g : GrayImg) (i j : Nat) : Int :=
  (g.px (reflect101 g.height ((i : Int) - 1)) j : Int)
    + (g.px (reflect101 g.height ((i : Int) + 1)) j : Int)
    + (g.px i (reflect101 g.width ((j : Int) - 1)) : Int)
    + (g.px i (reflect101 g.width ((j : Int) + 1)) : Int)
    - 4 * (g.px i j : Int)

/-- `cv2.Laplacian(gray, cv2.CV_64F).var()`: the population variance
`E[x²] − (E[x])²` of the Laplacian response, as an exact rational. -/
def laplacianVar (g : GrayImg) : Rat :=
  let n : Rat := (g.height : Rat) * (g.width : Rat)
  (sum2 g.height g.width (fun i j => lapAt g i j * lapAt g i j) : Rat) / n
    - ((sum2 g.height g.width (fun i j => lapAt g i j) : Rat) / n)
      * ((sum2 g.height g.width (fun i j => lapAt g i j) : Rat) / n)

/-- The body of `ImageProcessor.validate_image_quality`
(`image_processor.py` lines 126-148), before the enclosing `try/except`:
resolution check, then brightness check, then blur check, short-circuiting at
the first failure; the `cv2.cvtColor` call in the blur check can raise, which
the `Except` models. -/
def validateCore (img : Img) : Except String (Bool × String) :=
  if img.width < 100 ∨ img.height < 100 then
    .ok (false, "Image too small. Minimum size: 100x100")
  else if meanBrightness img < 30 then
    .ok (false, "Image too dark. Please use better lighting.")
  else if meanBrightness img > 220 then
    .ok (false, "Image too bright. Please reduce lighting.")
  else
    match cvtColorRGB2GRAY img with
    | .error e => .error e
    | .ok g =>
      if laplacianVar g < 100 then
        .ok (false, "Image appears blurry. Please take a clearer photo.")
      else
        .ok (true, "Image quality is acceptable")

/-- `ImageProcessor.validate_image_quality` (lines 116-152): the checks of
`validateCore` wrapped in the source's `try/except`, whose handler returns
`(True, "Could not validate image quality, proceeding anyway")`. -/
def ImageProcessor.validate_image_quality (img : Img) : Bool × String :=
  match validateCore img with
  | .ok v => v
  | .error _ => (true, "Could not validate image quality, proceeding anyway")

/-- Contract of `image.resize(self.target_size, Image.Resampling.LANCZOS)` for
the default target size (224, 224) of `ImageProcessor`: PIL returns an image of
width 224 and height 224 in the same mode (same channel count, and still a 2-D
array for a single-band source), with 8-bit pixel values. -/
def LanczosResize (resize : Img → Img) : Prop :=
  ∀ a : Img, (resize a).height = 224 ∧ (resize a).width = 224 ∧
    (resize a).channels = a.channels ∧ ∀ i j k, (resize a).px i j k ≤ 255

/-- `ImageProcessor.preprocess_image` (`image_processor.py` lines 17-47) with
the library resampling call abstracted as the `resize` parameter: resize to the
target size, then force 3 channels — `np.stack([a] * 3, axis=-1)` when the
array is 2-dimensional (`channels = 1`), `a[:, :, :3]` when it has exactly 4
channels, unchanged otherwise — then cast to float and divide by 255.0. -/
def ImageProcessor.preprocess_image (resize : Img → Img) (image : Img) : Tensor :=
  let resized := resize image
  let a :=
    if resized.channels = 1 then
      { resized with channels := 3, px := fun i j _ => resized.px i j 0 }
    else if resized.channels = 4 then
      { resized with channels := 3 }
    else resized
  ⟨a.height, a.width, a.channels, fun i j k => (a.px i j k : Rat) / 255⟩

/-- The opaque cv2 primitives used by `ImageProcessor.enhance_image`: the
colour-space round trip RGB → BGR → LAB and back (absorbed into `rgb2lab` /
`lab2rgb`) and the CLAHE transform applied to the L channel. -/
structure EnhanceOps where
  rgb2lab : Img → Img
  clahe : GrayImg → GrayImg
  lab2rgb : Img → Img

/-- The cv2 call chain in the `try` block of `ImageProcessor.enhance_image`
(lines 60-72): `cv2.cvtColor` raises unless the array is a 3-channel byte
image (a grayscale PIL input yields a 2-D array, on which `COLOR_RGB2BGR`
fails); on a 3-channel input, convert to LAB, replace the L channel by its
CLAHE-equalized version, and convert back. -/
def enhanceChain (ops : EnhanceOps) (image : Img) : Except String Img :=
  if image.channels = 3 then
    let lab := ops.rgb2lab image
    let l2 := ops.clahe ⟨lab.height, lab.width, fun i j => lab.px i j 0⟩
    let lab2 : Img :=
      { lab with px := fun i j k => if k = 0 then l2.px i j else lab.px i j k }
    .ok (ops.lab2rgb lab2)
  else .error "cvtColor: Invalid number of channels in input image"

/-- `ImageProcessor.enhance_image` (lines 49-76): the cv2 chain wrapped in the
source's `try/except`, whose handler returns the original image unchanged. -/
def ImageProcessor.enhance_image (ops : EnhanceOps) (image : Img) : Img :=
  match enhanceChain ops image with
  | .ok e => e
  | .error _ => image

/-- The opaque cv2 primitives used by `ImageProcessor.detect_leaf_regions`:
the RGB → HSV conversion and the two morphological mask clean-ups. -/
structure LeafOps where
  rgb2hsv : Img → Img
  morphClose : GrayImg → GrayImg
  morphOpen : GrayImg → GrayImg

/-- `cv2.inRange(hsv, np.array([35, 40, 40]), np.array([85, 255, 255]))`:
the binary mask valued 255 where every channel lies inside the bounds and 0
elsewhere. -/
def inRangeGreen (hsv : Img) : GrayImg :=
  ⟨hsv.height, hsv.width, fun i j =>
    if 35 ≤ hsv.px i j 0 ∧ hsv.px i j 0 ≤ 85 ∧
       40 ≤ hsv.px i j 1 ∧ hsv.px i j 1 ≤ 255 ∧
       40 ≤ hsv.px i j 2 ∧ hsv.px i j 2 ≤ 255 then 255 else 0⟩

/-- The cv2 call chain in the `try` block of `ImageProcessor.detect_leaf_regions`
(lines 88-110): `cv2.cvtColor(·, COLOR_RGB2HSV)` raises unless the array has
3 channels; then build the green-band mask, clean it with a morphological close
followed by an open (5×5 kernel, the opaque `ops`), and black out every pixel
where the mask is 0 (`result[mask == 0] = [0, 0, 0]`). -/
def leafChain (ops : LeafOps) (image : Img) : Except String Img :=
  if image.channels = 3 then
    let hsv := ops.rgb2hsv image
    let mask := ops.morphOpen (ops.morphClose (inRangeGreen hsv))
    .ok { image with px := fun i j k => if mask.px i j = 0 then 0 else image.px i j k }
  else .error "cvtColor: Invalid number of channels in input image"

/-- `ImageProcessor.detect_leaf_regions` (lines 78-114): the cv2 chain wrapped
in the source's `try/except`, whose handler returns the original image. -/
def ImageProcessor.detect_leaf_regions (ops : LeafOps) (image : Img) : Img :=
  match leafChain ops image with
  | .ok r => r
  | .error _ => image

/-- The result dictionary returned by `DiseaseDetector.predict`.  The
`all_predictions` entry is the label → probability mapping, in `class_names`
order; the fallback dictionary of the `except` branch omits that key, which
this embedding renders as the empty mapping. -/
structure PredictOut where
  disease : String
  confidence : Rat
  recommendations : List String
  all_predictions : List (String × Rat)
deriving DecidableEq, Repr

/-- `DiseaseDetector.class_names` (`disease_detector.py` lines 18-29): the
fixed ordered label list aligned with the classifier output. -/
def class_names : List String :=
  ["Healthy",
   "Bacterial Spot",
   "Early Blight",
   "Late Blight",
   "Leaf Mold",
   "Septoria Leaf Spot",
   "Spider Mites",
   "Target Spot",
   "Yellow Leaf Curl Virus",
   "Mosaic Virus"]

/-- `DiseaseDetector.recommendations` (lines 32-101): the static label →
advice-list dictionary, in insertion order. -/
def recommendations : List (String × List String) :=
  [("Healthy",
    ["Your plant appears healthy! Continue current care practices.",
     "Maintain proper watering and ensure good air circulation.",
     "Monitor regularly for any changes."]),
   ("Bacterial Spot",
    ["Remove affected leaves and dispose of them properly.",
     "Apply copper-based fungicide spray.",
     "Improve air circulation around plants.",
     "Water at soil level to avoid wetting leaves.",
     "Consider using drip irrigation."]),
   ("Early Blight",
    ["Remove and destroy infected plant debris.",
     "Apply fungicide containing chlorothalonil or copper.",
     "Ensure proper plant spacing for air circulation.",
     "Water early in the day so leaves dry quickly.",
     "Consider crop rotation next season."]),
   ("Late Blight",
    ["Remove affected plants immediately to prevent spread.",
     "Apply preventive fungicide spray (copper or mancozeb).",
     "Ensure good drainage and avoid overhead watering.",
     "Increase air circulation between plants.",
     "Monitor weather conditions - disease spreads in cool, wet weather."]),
   ("Leaf Mold",
    ["Improve greenhouse ventilation if growing indoors.",
     "Reduce humidity around plants.",
     "Remove infected leaves immediately.",
     "Apply fungicide spray in the evening.",
     "Consider resistant varieties for future planting."]),
   ("Septoria Leaf Spot",
    ["Remove infected leaves from bottom of plant first.",
     "Apply organic fungicide or neem oil spray.",
     "Mulch around plants to prevent soil splash.",
     "Water at ground level only.",
     "Stake plants to improve air circulation."]),
   ("Spider Mites",
    ["Spray plants with water to dislodge mites.",
     "Apply insecticidal soap or neem oil.",
     "Increase humidity around plants.",
     "Introduce beneficial insects like ladybugs.",
     "Remove heavily infested leaves."]),
   ("Target Spot",
    ["Remove infected plant debris immediately.",
     "Apply preventive fungicide treatment.",
     "Improve air circulation and reduce humidity.",
     "Avoid overhead watering.",
     "Consider soil sterilization for severe cases."]),
   ("Yellow Leaf Curl Virus",
    ["Remove infected plants to prevent spread.",
     "Control whitefly populations (vector of virus).",
     "Use reflective mulch to deter insects.",
     "Plant virus-resistant varieties.",
     "Monitor and remove weeds that may harbor the virus."]),
   ("Mosaic Virus",
    ["Remove and destroy infected plants immediately.",
     "Disinfect tools between plants.",
     "Control aphid populations (virus vector).",
     "Wash hands thoroughly when handling plants.",
     "Plant virus-resistant cultivars in future."])]

/-- The default argument of the `self.recommendations.get(disease_name, [...])`
lookup (lines 172-176). -/
def default_recommendations : List String :=
  ["Consult with a plant pathologist for specific treatment advice.",
   "Monitor the plant closely for changes.",
   "Consider isolating the plant if symptoms worsen."]

/-- Python `dict.get(key, default)` over an association list with unique keys
in insertion order. -/
def dictGet (table : List (String × List String)) (key : String)
    (default : List String) : List String :=
  match table with
  | [] => default
  | (k, v) :: rest => if key = k then v else dictGet rest key default

/-- The recommendation lookup performed by `DiseaseDetector.predict`
(lines 172-176): `self.recommendations.get(disease_name, default)`. -/
def recommendation_lookup (label : String) : List String :=
  dictGet recommendations label default_recommendations

/-- Tail of `np.argmax`: scan the remaining entries, keeping the index of the
best value seen so far and updating only on a strictly larger value (so ties
keep the first occurrence). -/
def argmaxAux : List Rat → Nat → Nat → Rat → Nat
  | [], _, best, _ => best
  | x :: xs, i, best, bv =>
    if bv < x then argmaxAux xs (i + 1) i x else argmaxAux xs (i + 1) best bv

/-- `np.argmax` over a 1-D array: the index of the first occurrence of the
maximum value (the numpy call raises on an empty array; `predictTry` guards
that case, so the value returned here for `[]` is never used). -/
def npArgmax : List Rat → Nat
  | [] => 0
  | x :: xs => argmaxAux xs 1 0 x

/-- The dict comprehension
`{self.class_names[i]: float(predictions[0][i]) for i in range(len(self.class_names))}`
(lines 182-185): raises `IndexError` (here `none`) when the prediction vector
is shorter than `class_names`. -/
def allPredictions (preds : List Rat) : Option (List (String × Rat)) :=
  if preds.length < class_names.length then none
  else some ((List.range class_names.length).map
    (fun i => (class_names.getD i "", preds.getD i 0)))

/-- The `try` body of `DiseaseDetector.predict` (lines 158-186) after the
model call: `np.argmax` (raises on an empty vector), `predictions[0][idx]`,
`self.class_names[idx]` (raises when the vector is longer than the label
list), the recommendation lookup, and the full label → probability mapping. -/
def predictTry (preds : List Rat) : Except String PredictOut :=
  if preds.isEmpty then
    .error "attempt to get argmax of an empty sequence"
  else
    let idx := npArgmax preds
    let confidence := preds.getD idx 0
    match class_names.get? idx with
    | none => .error "list index out of range"
    | some disease_name =>
      match allPredictions preds with
      | none => .error "list index out of range"
      | some dist =>
        .ok ⟨disease_name, confidence, recommendation_lookup disease_name, dist⟩

/-- The fallback dictionary returned by the `except` branch of
`DiseaseDetector.predict` (lines 188-199). -/
def fallback_response : PredictOut :=
  ⟨"Analysis Failed", 0,
   ["Unable to analyze image. Please try again with a clearer image.",
    "Ensure the image shows a clear view of plant leaves.",
    "Contact support if the problem persists."],
   []⟩

/-- `DiseaseDetector.predict` (lines 145-199).  The model interaction —
lazily loading the model when it is unready and calling
`self.model.predict` — is collapsed into its outcome `inferResult`: either the
probability vector `predictions[0]` or the exception raised.  Every exception
inside the `try` block (a failed inference, `np.argmax` on an empty vector, or
an out-of-range label index) yields the fallback dictionary. -/
def DiseaseDetector.predict (inferResult : Except String (List Rat)) : PredictOut :=
  match inferResult with
  | .error _ => fallback_response
  | .ok preds =>
    match predictTry preds with
    | .ok out => out
    | .error _ => fallback_response

/-- The stub probability distribution of the spec's testable property:
`[0.7, 0.1, 0.05, ...]` aligned with `class_names` (written with `Rat.divInt`,
which the kernel can evaluate; `Rat.divInt n d = n / d`). -/
def stub_distribution : List Rat :=
  [Rat.divInt 7 10, Rat.divInt 1 10, Rat.divInt 1 20, Rat.divInt 1 20,
   Rat.divInt 1 50, Rat.divInt 1 50, Rat.divInt 1 50, Rat.divInt 1 50,
   Rat.divInt 1 100, Rat.divInt 1 100]

/-- The pipeline stages of the `/api/detect` handler that this embedding
tracks, to state which parts of the code a request exercises. -/
inductive Stage where
  | decode
  | convertRGB
  | qualityGate
  | enhance
  | normalize
  | classify
deriving DecidableEq, Repr

/-- The JSON payload built by `detect_disease` (`main.py` lines 93-97). -/
structure Response where
  disease : String
  confidence : Rat
  recommendations : List String
deriving DecidableEq, Repr

/-- `image.convert('RGB')` applied when `image.mode != 'RGB'`
(`main.py` lines 83-84): PIL replicates the single band of an `L`/`LA` source
and drops an alpha band, always yielding 3 channels. -/
def convertRGB (a : Img) : Img :=
  if a.channels = 3 then a
  else if a.channels = 4 then { a with channels := 3 }
  else { a with channels := 3, px := fun i j _ => a.px i j 0 }

/-- The `/api/detect` handler `detect_disease` (`main.py` lines 59-108) from
the point the uploaded bytes are read, instrumented with the list of pipeline
stages it executes.  `decoded` is the outcome of `Image.open(io.BytesIO(contents))`:
`.error` when the bytes are empty or not a decodable image.  Any exception is
caught by the handler's `except` branch and re-raised as
`HTTPException(500, "Error processing image: ...")` (the `.error` result).
The handler never calls `ImageProcessor.validate_image_quality`,
`enhance_image` or `detect_leaf_regions`: a decoded image is converted to RGB,
preprocessed and classified unconditionally. -/
def detect_disease (resize : Img → Img) (infer : Tensor → Except String (List Rat))
    (decoded : Except String Img) : Except String Response × List Stage :=
  match decoded with
  | .error e => (.error ("Error processing image: " ++ e), [Stage.decode])
  | .ok image =>
    let rgb := convertRGB image
    let processed := ImageProcessor.preprocess_image resize rgb
    let prediction := DiseaseDetector.predict (infer processed)
    (.ok ⟨prediction.disease, prediction.confidence, prediction.recommendations⟩,
     [Stage.decode, Stage.convertRGB, Stage.normalize, Stage.classify])

lemma argmaxAux_spec (xs : List Rat) :
    ∀ (front : List Rat) (best : Nat),
      best < front.length →
      (∀ j, j < front.length → front.getD j 0 ≤ front.getD best 0) →
      (∀ j, j < best → front.getD j 0 < front.getD best 0) →
      argmaxAux xs front.length best (front.getD best 0) < (front ++ xs).length ∧
      (∀ j, j < (front ++ xs).length →
        (front ++ xs).getD j 0 ≤
          (front ++ xs).getD (argmaxAux xs front.length best (front.getD best 0)) 0) ∧
      (∀ j, j < argmaxAux xs front.length best (front.getD best 0) →
        (front ++ xs).getD j 0 <
          (front ++ xs).getD (argmaxAux xs front.length best (front.getD best 0)) 0) := by
  induction xs with
  | nil =>
    intro front best hb hle hlt
    simp only [argmaxAux, List.append_nil]
    refine ⟨hb, hle, fun j hj => hlt j hj⟩
  | cons x xs ih =>
    intro front best hb hle hlt
    have hfx : front ++ x :: xs = (front ++ [x]) ++ xs := by simp
    have hlen : (front ++ [x]).length = front.length + 1 := by simp
    by_cases hcmp : front.getD best 0 < x
    · have hbest2 : (front ++ [x]).getD front.length 0 = x := by
        rw [List.getD_append_right _ _ _ _ (Nat.le_refl _)]
        simp
      have h1 : front.length < (front ++ [x]).length := by simp
      have h2 : ∀ j, j < (front ++ [x]).length →
          (front ++ [x]).getD j 0 ≤ (front ++ [x]).getD front.length 0 := by
        intro j hj
        rw [hbest2]
        rcases Nat.lt_or_ge j front.length with hj2 | hj2
        · rw [List.getD_append _ _ _ _ hj2]
          exact le_of_lt (lt_of_le_of_lt (hle j hj2) hcmp)
        · have : j = front.length := by
            have := hlen ▸ hj
            omega
          rw [this, hbest2]
      have h3 : ∀ j, j < front.length →
          (front ++ [x]).getD j 0 < (front ++ [x]).getD front.length 0 := by
        intro j hj
        rw [hbest2, List.getD_append _ _ _ _ hj]
        exact lt_of_le_of_lt (hle j hj) hcmp
      have hrec := ih (front ++ [x]) front.length (by simp) h2 h3
      rw [hlen, hbest2] at hrec
      have harg : argmaxAux (x :: xs) front.length best (front.getD best 0) =
          argmaxAux xs (front.length + 1) front.length x := by
        simp only [argmaxAux, if_pos hcmp]
      rw [harg, hfx]
      exact hrec
    · have hbest2 : (front ++ [x]).getD best 0 = front.getD best 0 :=
        List.getD_append _ _ _ _ hb
      have h2 : ∀ j, j < (front ++ [x]).length →
          (front ++ [x]).getD j 0 ≤ (front ++ [x]).getD best 0 := by
        intro j hj
        rw [hbest2]
        rcases Nat.lt_or_ge j front.length with hj2 | hj2
        · rw [List.getD_append _ _ _ _ hj2]
          exact hle j hj2
        · have hj3 : j = front.length := by
            have := hlen ▸ hj
            omega
          rw [hj3, List.getD_append_right _ _ _ _ (Nat.le_refl _)]
          simpa using le_of_not_lt hcmp
      have h3 : ∀ j, j < best →
          (front ++ [x]).getD j 0 < (front ++ [x]).getD best 0 := by
        intro j hj
        rw [hbest2, List.getD_append _ _ _ _ (lt_trans hj hb)]
        exact hlt j hj
      have hrec := ih (front ++ [x]) best (by simp; omega) h2 h3
      rw [hlen, hbest2] at hrec
      have harg : argmaxAux (x :: xs) front.length best (front.getD best 0) =
          argmaxAux xs (front.length + 1) best (front.getD best 0) := by
        simp only [argmaxAux, if_neg hcmp]
      rw [harg, hfx]
      exact hrec

/-- `np.argmax` returns an in-range index whose entry is the maximum, with
ties broken by the first occurrence. -/
lemma npArgmax_spec (l : List Rat) (hne : l ≠ []) :
    npArgmax l < l.length ∧
    (∀ j, j < l.length → l.getD j 0 ≤ l.getD (npArgmax l) 0) ∧
    (∀ j, j < npArgmax l → l.getD j 0 < l.getD (npArgmax l) 0) := by
  cases l with
  | nil => exact absurd rfl hne
  | cons x xs =>
    have h := argmaxAux_spec xs [x] 0 (by simp)
      (by
        intro j hj
        simp only [List.length_singleton] at hj
        have : j = 0 := by omega
        simp [this])
      (by intro j hj; omega)
    simpa [npArgmax, argmaxAux] using h

lemma dictGet_of_not_mem (table : List (String × List String)) (key : String)
    (default : List String) (h : key ∉ table.map Prod.fst) :
    dictGet table key default = default := by
  induction table with
  | nil => rfl
  | cons p rest ih =>
    simp only [List.map_cons, List.mem_cons, not_or] at h
    simp only [dictGet, if_neg h.1]
    exact ih h.2

lemma dictGet_mem_or_default (table : List (String × List String)) (key : String)
    (default : List String) :
    dictGet table key default = default ∨
    ∃ p ∈ table, p.1 = key ∧ dictGet table key default = p.2 := by
  induction table with
  | nil => exact Or.inl rfl
  | cons p rest ih =>
    by_cases hk : key = p.1
    · refine Or.inr ⟨p, List.mem_cons_self p rest, hk.symm, ?_⟩
      simp [dictGet, hk]
    · simp only [dictGet, if_neg hk]
      rcases ih with h | ⟨q, hq, hq1, hq2⟩
      · exact Or.inl h
      · exact Or.inr ⟨q, List.mem_cons_of_mem p hq, hq1, hq2⟩

/-- C9: the recommendation lookup used by `predict` is total — a label absent
from the table yields the default 3-item consult-a-pathologist list, and for
every label the result is a non-empty list of strings. -/
theorem recommendation_lookup_total (label : String) :
    (label ∉ recommendations.map Prod.fst →
      recommendation_lookup label =
        ["Consult with a plant pathologist for specific treatment advice.",
         "Monitor the plant closely for changes.",
         "Consider isolating the plant if symptoms worsen."]) ∧
    recommendation_lookup label ≠ [] := by
  constructor
  · intro h
    exact dictGet_of_not_mem recommendations label default_recommendations h
  · rcases dictGet_mem_or_default recommendations label default_recommendations with h | ⟨p, hp, _, h2⟩
    · rw [recommendation_lookup, h]
      simp [default_recommendations]
    · rw [recommendation_lookup, h2]
      have : ∀ q ∈ recommendations, q.2 ≠ [] := by decide
      exact this p hp

/-- Witness for C9: the label "Powdery Mildew" is not in the table and maps to
the default entry, which is non-empty. -/
theorem recommendation_lookup_total_witness :
    recommendation_lookup "Powdery Mildew" =
      ["Consult with a plant pathologist for specific treatment advice.",
       "Monitor the plant closely for changes.",
       "Consider isolating the plant if symptoms worsen."] ∧
    recommendation_lookup "Powdery Mildew" ≠ [] :=
  ⟨(recommendation_lookup_total "Powdery Mildew").1 (by decide),
   (recommendation_lookup_total "Powdery Mildew").2⟩

/-- C1: when the classifier inference raises — for any reason, including the
model being unready when the lazy load-and-infer interaction fails — `predict`
returns the fallback result: topLabel "Analysis Failed", confidence 0.0, the
fixed 3-item guidance list, and an empty distribution (the fallback dictionary
carries no `all_predictions` key).  The fallback branch builds a constant
dictionary, so it cannot itself raise: `predict` is a total function into
structurally valid results on this failure class. -/
theorem predict_fallback_on_inference_error (e : String) :
    DiseaseDetector.predict (.error e) =
      ⟨"Analysis Failed", 0,
       ["Unable to analyze image. Please try again with a clearer image.",
        "Ensure the image shows a clear view of plant leaves.",
        "Contact support if the problem persists."],
       []⟩ := rfl

/-- C7: each Enhancer transform catches any internal failure of its cv2 call
chain and returns the original image unchanged; both `enhance_image` and
`detect_leaf_regions` are total — every input yields either the transformed
image or the original, never a propagated error. -/
theorem enhance_transforms_fail_safe :
    (∀ (ops : EnhanceOps) (img : Img),
      (∃ e, enhanceChain ops img = .error e ∧ ImageProcessor.enhance_image ops img = img) ∨
      (∃ r, enhanceChain ops img = .ok r ∧ ImageProcessor.enhance_image ops img = r)) ∧
    (∀ (ops : LeafOps) (img : Img),
      (∃ e, leafChain ops img = .error e ∧ ImageProcessor.detect_leaf_regions ops img = img) ∨
      (∃ r, leafChain ops img = .ok r ∧ ImageProcessor.detect_leaf_regions ops img = r)) := by
  constructor
  · intro ops img
    rcases h : enhanceChain ops img with e | r
    · exact Or.inl ⟨e, rfl, by rw [ImageProcessor.enhance_image, h]⟩
    · exact Or.inr ⟨r, rfl, by rw [ImageProcessor.enhance_image, h]⟩
  · intro ops img
    rcases h : leafChain ops img with e | r
    · exact Or.inl ⟨e, rfl, by rw [ImageProcessor.detect_leaf_regions, h]⟩
    · exact Or.inr ⟨r, rfl, by rw [ImageProcessor.detect_leaf_regions, h]⟩

lemma preprocess_image_eval (resize : Img → Img) (image : Img) :
    ImageProcessor.preprocess_image resize image =
      if (resize image).channels = 1 then
        ⟨(resize image).height, (resize image).width, 3,
         fun i j _ => ((resize image).px i j 0 : Rat) / 255⟩
      else if (resize image).channels = 4 then
        ⟨(resize image).height, (resize image).width, 3,
         fun i j k => ((resize image).px i j k : Rat) / 255⟩
      else
        ⟨(resize image).height, (resize image).width, (resize image).channels,
         fun i j k => ((resize image).px i j k : Rat) / 255⟩ := by
  by_cases h1 : (resize image).channels = 1
  · simp [ImageProcessor.preprocess_image, h1]
  · by_cases h4 : (resize image).channels = 4
    · simp [ImageProcessor.preprocess_image, h1, h4]
    · simp [ImageProcessor.preprocess_image, h1, h4]

lemma byte_div_unit (n : Nat) (hb : n ≤ 255) :
    (0 : Rat) ≤ (n : Rat) / 255 ∧ (n : Rat) / 255 ≤ 1 := by
  constructor
  · positivity
  · rw [div_le_one (by norm_num)]
    exact_mod_cast hb

/-- C2: for any resampling call satisfying the PIL resize contract and any
decodable input image with 1, 3 or 4 channels, `preprocess_image` returns a
(224, 224, 3) tensor of values in [0, 1]: a single grayscale channel is
replicated three times, an alpha channel is dropped, and every retained byte
is divided by 255.0. -/
theorem preprocess_image_normalizes (resize : Img → Img) (hres : LanczosResize resize)
    (image : Img) (hch : image.channels = 1 ∨ image.channels = 3 ∨ image.channels = 4) :
    (ImageProcessor.preprocess_image resize image).height = 224 ∧
    (ImageProcessor.preprocess_image resize image).width = 224 ∧
    (ImageProcessor.preprocess_image resize image).channels = 3 ∧
    (∀ i j k, 0 ≤ (ImageProcessor.preprocess_image resize image).px i j k ∧
      (ImageProcessor.preprocess_image resize image).px i j k ≤ 1) ∧
    (image.channels = 1 → ∀ i j k,
      (ImageProcessor.preprocess_image resize image).px i j k =
        ((resize image).px i j 0 : Rat) / 255) ∧
    (image.channels = 3 ∨ image.channels = 4 → ∀ i j k,
      (ImageProcessor.preprocess_image resize image).px i j k =
        ((resize image).px i j k : Rat) / 255) := by
  obtain ⟨hh, hw, hc, hb⟩ := hres image
  rw [preprocess_image_eval resize image]
  rcases hch with h1 | h3 | h4
  · rw [if_pos (hc.trans h1)]
    refine ⟨hh, hw, rfl, ?_, ?_, ?_⟩
    · intro i j k
      exact byte_div_unit _ (hb i j 0)
    · intro _ i j k
      rfl
    · intro hcontra
      rw [h1] at hcontra
      rcases hcontra with h | h <;> omega
  · rw [if_neg (by rw [hc, h3]; omega), if_neg (by rw [hc, h3]; omega), hc, h3]
    refine ⟨hh, hw, rfl, ?_, ?_, ?_⟩
    · intro i j k
      exact byte_div_unit _ (hb i j k)
    · intro hcontra
      omega
    · intro _ i j k
      rfl
  · rw [if_neg (by rw [hc, h4]; omega), if_pos (by rw [hc, h4])]
    refine ⟨hh, hw, rfl, ?_, ?_, ?_⟩
    · intro i j k
      exact byte_div_unit _ (hb i j k)
    · intro hcontra
      omega
    · intro _ i j k
      rfl

/-- A concrete resampling function satisfying the PIL resize contract, used
by the witnesses: every output pixel is the byte 7. -/
def resizeConst : Img → Img :=
  fun a => ⟨224, 224, a.channels, fun _ _ _ => 7⟩

lemma resizeConst_contract : LanczosResize resizeConst := by
  intro a
  exact ⟨rfl, rfl, rfl, fun i j k => by norm_num [resizeConst]⟩

/-- A concrete 2-D grayscale input image for the C2 witness. -/
def imgGraySmall : Img := ⟨50, 60, 1, fun _ _ _ => 9⟩

/-- Witness for C2: at a concrete grayscale 50×60 image and a concrete
contract-satisfying resize, the preprocessed tensor has shape (224, 224, 3)
and its value at (0, 0, 0) is 7/255 ∈ [0, 1]. -/
theorem preprocess_image_normalizes_witness :
    LanczosResize resizeConst ∧
    (imgGraySmall.channels = 1 ∨ imgGraySmall.channels = 3 ∨ imgGraySmall.channels = 4) ∧
    (ImageProcessor.preprocess_image resizeConst imgGraySmall).height = 224 ∧
    (ImageProcessor.preprocess_image resizeConst imgGraySmall).width = 224 ∧
    (ImageProcessor.preprocess_image resizeConst imgGraySmall).channels = 3 ∧
    (0 ≤ (ImageProcessor.preprocess_image resizeConst imgGraySmall).px 0 0 0 ∧
      (ImageProcessor.preprocess_image resizeConst imgGraySmall).px 0 0 0 ≤ 1) :=
  ⟨resizeConst_contract, Or.inl rfl,
   (preprocess_image_normalizes resizeConst resizeConst_contract imgGraySmall (Or.inl rfl)).1,
   (preprocess_image_normalizes resizeConst resizeConst_contract imgGraySmall (Or.inl rfl)).2.1,
   (preprocess_image_normalizes resizeConst resizeConst_contract imgGraySmall (Or.inl rfl)).2.2.1,
   (preprocess_image_normalizes resizeConst resizeConst_contract imgGraySmall (Or.inl rfl)).2.2.2.1 0 0 0⟩

/-- C10: an input whose decoded array has a channel count other than 1, 3 or 4
— for example a 2-channel luminance+alpha image — is resized and scaled into
[0, 1] but keeps its channel count: the 3-channel forcing does not apply. -/
theorem preprocess_image_two_channel (resize : Img → Img) (hres : LanczosResize resize)
    (image : Img) (hch : image.channels = 2) :
    (ImageProcessor.preprocess_image resize image).height = 224 ∧
    (ImageProcessor.preprocess_image resize image).width = 224 ∧
    (ImageProcessor.preprocess_image resize image).channels = 2 ∧
    (∀ i j k, 0 ≤ (ImageProcessor.preprocess_image resize image).px i j k ∧
      (ImageProcessor.preprocess_image resize image).px i j k ≤ 1) ∧
    (∀ i j k, (ImageProcessor.preprocess_image resize image).px i j k =
      ((resize image).px i j k : Rat) / 255) := by
  obtain ⟨hh, hw, hc, hb⟩ := hres image
  rw [preprocess_image_eval resize image,
    if_neg (by rw [hc, hch]; omega), if_neg (by rw [hc, hch]; omega)]
  exact ⟨hh, hw, by rw [hc, hch], fun i j k => byte_div_unit _ (hb i j k),
    fun i j k => rfl⟩

/-- A concrete 2-channel (luminance+alpha) input image for the C10 witness. -/
def imgLA : Img := ⟨40, 30, 2, fun _ _ _ => 11⟩

/-- Witness for C10: at a concrete 2-channel image, the preprocessed tensor is
224×224 and still has 2 channels, with values in [0, 1]. -/
theorem preprocess_image_two_channel_witness :
    LanczosResize resizeConst ∧ imgLA.channels = 2 ∧
    (ImageProcessor.preprocess_image resizeConst imgLA).height = 224 ∧
    (ImageProcessor.preprocess_image resizeConst imgLA).width = 224 ∧
    (ImageProcessor.preprocess_image resizeConst imgLA).channels = 2 ∧
    (0 ≤ (ImageProcessor.preprocess_image resizeConst imgLA).px 0 0 0 ∧
      (ImageProcessor.preprocess_image resizeConst imgLA).px 0 0 0 ≤ 1) :=
  ⟨resizeConst_contract, rfl,
   (preprocess_image_two_channel resizeConst resizeConst_contract imgLA rfl).1,
   (preprocess_image_two_channel resizeConst resizeConst_contract imgLA rfl).2.1,
   (preprocess_image_two_channel resizeConst resizeConst_contract imgLA rfl).2.2.1,
   (preprocess_image_two_channel resizeConst resizeConst_contract imgLA rfl).2.2.2.1 0 0 0⟩

/-- C3 (amended): for every successfully decoded image the `/api/detect`
pipeline converts to RGB, normalizes and classifies unconditionally, and it
never invokes `QualityGate.evaluate` (`validate_image_quality`) — nor the
Enhancer — so a quality rejection cannot prevent classification, vacuously:
no quality verdict is ever computed. -/
theorem detect_disease_skips_quality_gate (resize : Img → Img)
    (infer : Tensor → Except String (List Rat)) (image : Img) :
    (detect_disease resize infer (.ok image)).2 =
      [Stage.decode, Stage.convertRGB, Stage.normalize, Stage.classify] ∧
    Stage.qualityGate ∉ (detect_disease resize infer (.ok image)).2 ∧
    Stage.enhance ∉ (detect_disease resize infer (.ok image)).2 ∧
    Stage.normalize ∈ (detect_disease resize infer (.ok image)).2 ∧
    Stage.classify ∈ (detect_disease resize infer (.ok image)).2 := by
  refine ⟨rfl, ?_, ?_, ?_, ?_⟩ <;> simp [detect_disease]

/-- A concrete classifier-outcome function for the pipeline witnesses: the
inference always fails. -/
def inferFail : Tensor → Except String (List Rat) := fun _ => .error "model error"

/-- A concrete RGB image for the pipeline counterexample. -/
def imgRGBSmall : Img := ⟨120, 110, 3, fun _ _ _ => 90⟩

/-- Counterexample for C3 as stated: at a concrete successfully decoded image,
the pipeline does not run `QualityGate.evaluate` at all (the stage never
occurs in the executed trace), contradicting the claim that it runs as
step 2. -/
theorem detect_disease_runs_quality_gate_counterexample :
    Stage.qualityGate ∉ (detect_disease resizeConst inferFail (.ok imgRGBSmall)).2 := by
  simp [detect_disease]

/-- C8: when decoding fails (empty or non-image bytes), the handler surfaces a
terminal error — the HTTP 500 `"Error processing image: ..."` — rather than a
fallback result, and neither the quality gate nor the normalizer (nor any
later stage) runs on such input. -/
theorem detect_disease_decode_error_terminal (resize : Img → Img)
    (infer : Tensor → Except String (List Rat)) (e : String) :
    (detect_disease resize infer (.error e)).1 =
      .error ("Error processing image: " ++ e) ∧
    (detect_disease resize infer (.error e)).2 = [Stage.decode] ∧
    Stage.qualityGate ∉ (detect_disease resize infer (.error e)).2 ∧
    Stage.normalize ∉ (detect_disease resize infer (.error e)).2 ∧
    Stage.classify ∉ (detect_disease resize infer (.error e)).2 := by
  refine ⟨rfl, rfl, ?_, ?_, ?_⟩ <;> simp [detect_disease]

/-- C6: on successful inference, the result's disease is the `class_names`
entry at the first index attaining the maximum of the probability vector, the
confidence is that maximum value, and `all_predictions` maps every label to
its probability; in particular the stub distribution
`[0.7, 0.1, 0.05, ...]` yields topLabel "Healthy", confidence 0.7 and the
"Healthy" row of the recommendation table. -/
theorem predict_success_argmax :
    (∀ preds : List Rat, preds.length = class_names.length →
      DiseaseDetector.predict (.ok preds) =
        ⟨class_names.getD (npArgmax preds) "",
         preds.getD (npArgmax preds) 0,
         recommendation_lookup (class_names.getD (npArgmax preds) ""),
         (List.range class_names.length).map
           (fun i => (class_names.getD i "", preds.getD i 0))⟩ ∧
      (∀ j, j < preds.length → preds.getD j 0 ≤ preds.getD (npArgmax preds) 0) ∧
      (∀ j, j < npArgmax preds → preds.getD j 0 < preds.getD (npArgmax preds) 0)) ∧
    ((DiseaseDetector.predict (.ok stub_distribution)).disease = "Healthy" ∧
     (DiseaseDetector.predict (.ok stub_distribution)).confidence = 7 / 10 ∧
     (DiseaseDetector.predict (.ok stub_distribution)).recommendations =
       ["Your plant appears healthy! Continue current care practices.",
        "Maintain proper watering and ensure good air circulation.",
        "Monitor regularly for any changes."]) := by
  constructor
  · intro preds hlen
    have hcn : class_names.length = 10 := by decide
    have hne : preds ≠ [] := by
      intro h
      rw [h] at hlen
      simp [hcn] at hlen
    obtain ⟨hidx, hmax, hfirst⟩ := npArgmax_spec preds hne
    refine ⟨?_, hmax, hfirst⟩
    have hidxc : npArgmax preds < class_names.length := hlen ▸ hidx
    have hget : class_names.get? (npArgmax preds) =
        some (class_names.getD (npArgmax preds) "") := by
      rw [List.get?_eq_getElem?, List.getElem?_eq_getElem hidxc,
        List.getD_eq_getElem _ _ hidxc]
    have hemp : preds.isEmpty = false := List.isEmpty_eq_false.mpr hne
    have hap : allPredictions preds =
        some ((List.range class_names.length).map
          (fun i => (class_names.getD i "", preds.getD i 0))) := by
      rw [allPredictions, if_neg (by omega)]
    simp only [DiseaseDetector.predict, predictTry, hemp, hget, hap,
      Bool.false_eq_true, if_false]
  · refine ⟨by decide, ?_, by decide⟩
    have h : (DiseaseDetector.predict (.ok stub_distribution)).confidence =
        Rat.divInt 7 10 := by decide
    rw [h, Rat.divInt_eq_div]
    norm_num

/-- Witness for C6: the general success-path equation applied at the concrete
stub distribution, whose length matches the label list. -/
theorem predict_success_argmax_witness :
    stub_distribution.length = class_names.length ∧
    DiseaseDetector.predict (.ok stub_distribution) =
      ⟨class_names.getD (npArgmax stub_distribution) "",
       stub_distribution.getD (npArgmax stub_distribution) 0,
       recommendation_lookup (class_names.getD (npArgmax stub_distribution) ""),
       (List.range class_names.length).map
         (fun i => (class_names.getD i "", stub_distribution.getD i 0))⟩ :=
  ⟨by decide, (predict_success_argmax.1 stub_distribution (by decide)).1⟩

/-- C4: `validate_image_quality` performs resolution, brightness and blur
checks in that order, short-circuiting at the first failure; every image of
size at least 100×100 with mean luminance in [30, 220] and Laplacian variance
at least 100 is accepted, and a 99×150 image is rejected with the size
reason. -/
theorem validate_image_quality_checks :
    (∀ img : Img, 100 ≤ img.width → 100 ≤ img.height →
      30 ≤ meanBrightness img → meanBrightness img ≤ 220 →
      100 ≤ laplacianVar (cvGray img) →
      (ImageProcessor.validate_image_quality img).1 = true) ∧
    (∀ img : Img, img.width < 100 ∨ img.height < 100 →
      ImageProcessor.validate_image_quality img =
        (false, "Image too small. Minimum size: 100x100")) ∧
    (∀ img : Img, 100 ≤ img.width → 100 ≤ img.height → meanBrightness img < 30 →
      ImageProcessor.validate_image_quality img =
        (false, "Image too dark. Please use better lighting.")) ∧
    (∀ img : Img, 100 ≤ img.width → 100 ≤ img.height → 220 < meanBrightness img →
      ImageProcessor.validate_image_quality img =
        (false, "Image too bright. Please reduce lighting.")) ∧
    (∀ img : Img, 100 ≤ img.width → 100 ≤ img.height →
      30 ≤ meanBrightness img → meanBrightness img ≤ 220 →
      (img.channels = 3 ∨ img.channels = 4) → laplacianVar (cvGray img) < 100 →
      ImageProcessor.validate_image_quality img =
        (false, "Image appears blurry. Please take a clearer photo.")) ∧
    (∀ img : Img, img.width = 99 → img.height = 150 →
      ImageProcessor.validate_image_quality img =
        (false, "Image too small. Minimum size: 100x100")) := by
  have hsmall : ∀ img : Img, img.width < 100 ∨ img.height < 100 →
      ImageProcessor.validate_image_quality img =
        (false, "Image too small. Minimum size: 100x100") := by
    intro img hlt
    have hc : validateCore img = .ok (false, "Image too small. Minimum size: 100x100") := by
      rw [validateCore, if_pos hlt]
    rw [ImageProcessor.validate_image_quality, hc]
  refine ⟨?_, hsmall, ?_, ?_, ?_, ?_⟩
  · intro img hw hh h30 h220 hvar
    have hsize : ¬(img.width < 100 ∨ img.height < 100) := by omega
    have hb1 : ¬(meanBrightness img < 30) := not_lt.mpr h30
    have hb2 : ¬(meanBrightness img > 220) := not_lt.mpr h220
    by_cases hch : img.channels = 3 ∨ img.channels = 4
    · have hcv : cvtColorRGB2GRAY img = .ok (cvGray img) := by
        rw [cvtColorRGB2GRAY, if_pos hch]
      have hv2 : ¬(laplacianVar (cvGray img) < 100) := not_lt.mpr hvar
      have hc : validateCore img = .ok (true, "Image quality is acceptable") := by
        rw [validateCore, if_neg hsize, if_neg hb1, if_neg hb2, hcv]
        simp only [if_neg hv2]
      rw [ImageProcessor.validate_image_quality, hc]
    · have hcv : cvtColorRGB2GRAY img =
          .error "cvtColor: Invalid number of channels in input image" := by
        rw [cvtColorRGB2GRAY, if_neg hch]
      have hc : validateCore img =
          .error "cvtColor: Invalid number of channels in input image" := by
        rw [validateCore, if_neg hsize, if_neg hb1, if_neg hb2, hcv]
      rw [ImageProcessor.validate_image_quality, hc]
  · intro img hw hh hdark
    have hsize : ¬(img.width < 100 ∨ img.height < 100) := by omega
    have hc : validateCore img = .ok (false, "Image too dark. Please use better lighting.") := by
      rw [validateCore, if_neg hsize, if_pos hdark]
    rw [ImageProcessor.validate_image_quality, hc]
  · intro img hw hh hbright
    have hsize : ¬(img.width < 100 ∨ img.height < 100) := by omega
    have hb1 : ¬(meanBrightness img < 30) := by
      push_neg
      linarith
    have hc : validateCore img =
        .ok (false, "Image too bright. Please reduce lighting.") := by
      rw [validateCore, if_neg hsize, if_neg hb1, if_pos hbright]
    rw [ImageProcessor.validate_image_quality, hc]
  · intro img hw hh h30 h220 hch hblur
    have hsize : ¬(img.width < 100 ∨ img.height < 100) := by omega
    have hb1 : ¬(meanBrightness img < 30) := not_lt.mpr h30
    have hb2 : ¬(meanBrightness img > 220) := not_lt.mpr h220
    have hcv : cvtColorRGB2GRAY img = .ok (cvGray img) := by
      rw [cvtColorRGB2GRAY, if_pos hch]
    have hc : validateCore img =
        .ok (false, "Image appears blurry. Please take a clearer photo.") := by
      rw [validateCore, if_neg hsize, if_neg hb1, if_neg hb2, hcv]
      simp only [if_pos hblur]
    rw [ImageProcessor.validate_image_quality, hc]
  · intro img hw hh
    exact hsmall img (Or.inl (by omega))

/-- C5: `validate_image_quality` never raises — every input yields the verdict
of the checks when they compute, and when a check cannot be computed (for
example the blur check's colour conversion on malformed pixel data) the
`except` branch returns accepted = true with the could-not-validate message,
degrading to analyze-anyway. -/
theorem validate_image_quality_never_raises :
    (∀ img : Img,
      (∃ e, validateCore img = .error e ∧
        ImageProcessor.validate_image_quality img =
          (true, "Could not validate image quality, proceeding anyway")) ∨
      (∃ v, validateCore img = .ok v ∧
        ImageProcessor.validate_image_quality img = v)) ∧
    (∀ img : Img, img.channels = 1 ∨ img.channels = 2 →
      100 ≤ img.width → 100 ≤ img.height →
      30 ≤ meanBrightness img → meanBrightness img ≤ 220 →
      ImageProcessor.validate_image_quality img =
        (true, "Could not validate image quality, proceeding anyway")) := by
  constructor
  · intro img
    rcases h : validateCore img with e | v
    · exact Or.inl ⟨e, rfl, by rw [ImageProcessor.validate_image_quality, h]⟩
    · exact Or.inr ⟨v, rfl, by rw [ImageProcessor.validate_image_quality, h]⟩
  · intro img hch hw hh h30 h220
    have hsize : ¬(img.width < 100 ∨ img.height < 100) := by omega
    have hb1 : ¬(meanBrightness img < 30) := not_lt.mpr h30
    have hb2 : ¬(meanBrightness img > 220) := not_lt.mpr h220
    have hch2 : ¬(img.channels = 3 ∨ img.channels = 4) := by omega
    have hcv : cvtColorRGB2GRAY img =
        .error "cvtColor: Invalid number of channels in input image" := by
      rw [cvtColorRGB2GRAY, if_neg hch2]
    have hc : validateCore img =
        .error "cvtColor: Invalid number of channels in input image" := by
      rw [validateCore, if_neg hsize, if_neg hb1, if_neg hb2, hcv]
    rw [ImageProcessor.validate_image_quality, hc]

/-- A concrete 100×100 RGB image with vertical stripes of bytes 100 and 160:
bright enough, and sharp enough for the Laplacian variance check. -/
def stripesImg : Img := ⟨100, 100, 3, fun _ j _ => if j % 2 = 0 then 100 else 160⟩

/-- A concrete 99×150 RGB image for the size-rejection instance. -/
def img99 : Img := ⟨150, 99, 3, fun _ _ _ => 77⟩

/-- Witness for C4: the stripes image satisfies all three checks and is
accepted, and the concrete 99×150 image is rejected for size. -/
theorem validate_image_quality_checks_witness :
    (100 ≤ stripesImg.width ∧ 100 ≤ stripesImg.height ∧
     30 ≤ meanBrightness stripesImg ∧ meanBrightness stripesImg ≤ 220 ∧
     100 ≤ laplacianVar (cvGray stripesImg) ∧
     (ImageProcessor.validate_image_quality stripesImg).1 = true) ∧
    (img99.width = 99 ∧ img99.height = 150 ∧
     ImageProcessor.validate_image_quality img99 =
       (false, "Image too small. Minimum size: 100x100")) := by
  have hsum : sum2 stripesImg.height stripesImg.width
      (fun i j => ((convertL stripesImg).px i j : Int)) = 1300000 := by decide
  have hmean : meanBrightness stripesImg = 130 := by
    simp only [meanBrightness, hsum]
    norm_num [stripesImg]
  have hs1 : sum2 (cvGray stripesImg).height (cvGray stripesImg).width
      (fun i j => lapAt (cvGray stripesImg) i j) = 0 := by decide
  have hs2 : sum2 (cvGray stripesImg).height (cvGray stripesImg).width
      (fun i j => lapAt (cvGray stripesImg) i j * lapAt (cvGray stripesImg) i j) =
      144000000 := by decide
  have hvar : laplacianVar (cvGray stripesImg) = 14400 := by
    simp only [laplacianVar, hs1, hs2]
    norm_num [cvGray, stripesImg]
  have h30 : (30 : Rat) ≤ meanBrightness stripesImg := by
    rw [hmean]
    norm_num
  have h220 : meanBrightness stripesImg ≤ 220 := by
    rw [hmean]
    norm_num
  have h100 : (100 : Rat) ≤ laplacianVar (cvGray stripesImg) := by
    rw [hvar]
    norm_num
  refine ⟨⟨by norm_num [stripesImg], by norm_num [stripesImg], h30, h220, h100, ?_⟩,
    rfl, rfl, ?_⟩
  · exact validate_image_quality_checks.1 stripesImg
      (by norm_num [stripesImg]) (by norm_num [stripesImg]) h30 h220 h100
  · exact validate_image_quality_checks.2.2.2.2.2 img99 rfl rfl

/-- A concrete 100×100 single-band (mode L) image of constant brightness 128:
its 2-D array makes the blur check's colour conversion raise. -/
def grayImg100 : Img := ⟨100, 100, 1, fun _ _ _ => 128⟩

/-- Witness for C5: on the concrete grayscale image the size and brightness
checks pass but the blur check cannot be computed, and the gate returns
accepted = true with the could-not-validate message instead of raising. -/
theorem validate_image_quality_never_raises_witness :
    (grayImg100.channels = 1 ∨ grayImg100.channels = 2) ∧
    100 ≤ grayImg100.width ∧ 100 ≤ grayImg100.height ∧
    30 ≤ meanBrightness grayImg100 ∧ meanBrightness grayImg100 ≤ 220 ∧
    ImageProcessor.validate_image_quality grayImg100 =
      (true, "Could not validate image quality, proceeding anyway") := by
  have hsum : sum2 grayImg100.height grayImg100.width
      (fun i j => ((convertL grayImg100).px i j : Int)) = 1280000 := by decide
  have hmean : meanBrightness grayImg100 = 128 := by
    simp only [meanBrightness, hsum]
    norm_num [grayImg100]
  have h30 : (30 : Rat) ≤ meanBrightness grayImg100 := by
    rw [hmean]
    norm_num
  have h220 : meanBrightness grayImg100 ≤ 220 := by
    rw [hmean]
    norm_num
  exact ⟨Or.inl rfl, by norm_num [grayImg100], by norm_num [grayImg100], h30, h220,
    validate_image_quality_never_raises.2 grayImg100 (Or.inl rfl)
      (by norm_num [grayImg100]) (by norm_num [grayImg100]) h30 h220⟩

/-- Witness for C1: the fallback equation at the concrete inference
error "model error". -/
theorem predict_fallback_on_inference_error_witness :
    DiseaseDetector.predict (.error "model error") =
      ⟨"Analysis Failed", 0,
       ["Unable to analyze image. Please try again with a clearer image.",
        "Ensure the image shows a clear view of plant leaves.",
        "Contact support if the problem persists."],
       []⟩ :=
  predict_fallback_on_inference_error "model error"

/-- Witness for the amended C3: at a concrete decoded image the executed trace
is decode, convert-to-RGB, normalize, classify — no quality gate stage. -/
theorem detect_disease_skips_quality_gate_witness :
    (detect_disease resizeConst inferFail (.ok imgRGBSmall)).2 =
      [Stage.decode, Stage.convertRGB, Stage.normalize, Stage.classify] ∧
    Stage.classify ∈ (detect_disease resizeConst inferFail (.ok imgRGBSmall)).2 :=
  ⟨(detect_disease_skips_quality_gate resizeConst inferFail imgRGBSmall).1,
   (detect_disease_skips_quality_gate resizeConst inferFail imgRGBSmall).2.2.2.2⟩

/-- Witness for C8: at a concrete decode failure the handler returns the
terminal 500 error and executes only the decode stage. -/
theorem detect_disease_decode_error_terminal_witness :
    (detect_disease resizeConst inferFail (.error "cannot identify image file")).1 =
      .error "Error processing image: cannot identify image file" ∧
    (detect_disease resizeConst inferFail (.error "cannot identify image file")).2 =
      [Stage.decode] :=
  ⟨(detect_disease_decode_error_terminal resizeConst inferFail "cannot identify image file").1,
   (detect_disease_decode_error_terminal resizeConst inferFail "cannot identify image file").2.1⟩
